import Mathlib

/-!
Verification of the `react-material-3-pure` repository: the pointer-driven
ripple/state-layer interaction controller (the `useRipple` hook consumed by
`Button.tsx`), the Button component's click wiring and render branches
(`src/unnamed/part_001`), and the Field component's label rendering
(`src/src/components/Field/Field.tsx`).

The `useRipple` hook itself lives in `../../hooks`, which is not part of the
provided sources; only its consumer `Button.tsx` is.  Its behaviour is
therefore modelled from the specification (sections 3, 4.1, 7 of the design
spec); every definition taken from the spec rather than from source code
carries a doc comment starting with `Modelled from the spec:`.  All other
definitions are shallow embeddings of the TypeScript source.
-/

set_option maxHeartbeats 1000000

/-! ### Data model of the ripple controller -/

/-- Modelled from the spec: `InteractionState` of the ripple controller
(the `useRipple` hook, absent from the provided sources):
`{ hovered: bool, pressed: bool, focused: bool }`. -/
structure InteractionState where
  hovered : Bool
  pressed : Bool
  focused : Bool
deriving DecidableEq

/-- Modelled from the spec: one `RippleAnimation` instance:
`{ originX: number, originY: number, startTime: timestamp, active: bool }`,
anchored to a surface's bounding box.  Coordinates are integers (CSS pixel
offsets relative to the surface's bounding box). -/
structure RippleAnimation where
  originX : Int
  originY : Int
  startTime : Nat
  active : Bool
deriving DecidableEq

/-- Modelled from the spec: the full per-surface state owned by one
ripple controller.  `ripples` holds every animation instance created so far,
most recent first; the spec's invariant is that at most one of them is
`active` at any time (a new activation replaces the prior one rather than
queuing). -/
structure RippleState where
  interaction : InteractionState
  ripples : List RippleAnimation
deriving DecidableEq

/-- The bounding box of one interactive surface, as reported by the host
view layer (`getBoundingClientRect`). -/
structure SurfaceRect where
  left : Int
  top : Int
  width : Int
  height : Int
deriving DecidableEq

/-- Initial state of a freshly mounted surface: not hovered, not pressed,
not focused, no animation instances. -/
def initState : RippleState :=
  { interaction := { hovered := false, pressed := false, focused := false }
    ripples := [] }

/-- Modelled from the spec: the fixed duration of a ripple animation
("a bounded, time-limited expanding-circle animation"); the concrete value
is a rendering constant and irrelevant to the controller's logic. -/
def rippleDuration : Nat := 450

/-- An animation instance that has been superseded, finalized or cancelled:
its `active` flag is cleared. -/
def deactivate (r : RippleAnimation) : RippleAnimation :=
  { r with active := false }

/-- The number of animation instances of a surface that are still active. -/
def countActive (l : List RippleAnimation) : Nat :=
  (l.filter (fun r => r.active)).length

/-! ### Event-driven transitions of the controller

Modelled from the spec, section 4.1 (operations of the RippleController)
and section 7 (out-of-order events are tolerated by idempotent resets).
The spec's sentence for `onPointerUp`/`onPointerCancel` — "clears pressed;
does not forcibly stop the ripple animation … unless cancelled" — is read
as: pointer-up lets the ripple run to completion, pointer-cancel cancels
the ripple of the press it terminates.  Both are idempotent: received with
`pressed = false` they change nothing (section 7). -/

/-- Modelled from the spec: `onPointerEnter() → sets hovered=true`. -/
def onPointerEnter (s : RippleState) : RippleState :=
  { s with interaction.hovered := true }

/-- Modelled from the spec: `onPointerLeave() → sets hovered=false; if
pressed, also clears pressed (pointer left while held) and finalizes any
active ripple early`. -/
def onPointerLeave (s : RippleState) : RippleState :=
  if s.interaction.pressed then
    { s with
        interaction.hovered := false
        interaction.pressed := false
        ripples := s.ripples.map deactivate }
  else
    { s with interaction.hovered := false }

/-- Modelled from the spec: `onPointerDown(x, y) → sets pressed=true;
records the pointer coordinate relative to the surface's bounding box as
the ripple origin; starts a new ripple animation, replacing any currently
active one`.  `x`, `y` are the event's client coordinates, `t` the event
timestamp supplied by the host event loop. -/
def onPointerDown (rect : SurfaceRect) (x y : Int) (t : Nat)
    (s : RippleState) : RippleState :=
  { s with
      interaction.pressed := true
      ripples :=
        { originX := x - rect.left
          originY := y - rect.top
          startTime := t
          active := true } :: s.ripples.map deactivate }

/-- Modelled from the spec: `onPointerUp() → clears pressed`; the ripple
animation keeps running to its fixed duration for visual completeness. -/
def onPointerUp (s : RippleState) : RippleState :=
  { s with interaction.pressed := false }

/-- Modelled from the spec: `onPointerCancel() → clears pressed` and
cancels the ripple of the interrupted press; a cancel with no press in
flight is tolerated as a no-op (section 7). -/
def onPointerCancel (s : RippleState) : RippleState :=
  if s.interaction.pressed then
    { s with
        interaction.pressed := false
        ripples := s.ripples.map deactivate }
  else s

/-- Modelled from the spec: `onActivate()` (keyboard Enter/Space or
programmatic, wired to the click handler) behaves like a centered
pointer-down/up pair: origin defaults to the surface's geometric center. -/
def onActivate (rect : SurfaceRect) (t : Nat) (s : RippleState) : RippleState :=
  onPointerUp
    (onPointerDown rect (rect.left + rect.width / 2) (rect.top + rect.height / 2) t s)

/-- Modelled from the spec: completion of the fixed-duration animation,
fired by the host environment's animation/timer facility at time `t`:
an active ripple whose duration has elapsed settles (becomes inactive). -/
def onSettle (t : Nat) (s : RippleState) : RippleState :=
  { s with
      ripples := s.ripples.map fun r =>
        if r.active && decide (r.startTime + rippleDuration ≤ t) then
          deactivate r
        else r }

/-- Modelled from the spec: disabling a surface immediately clears
`hovered` and `pressed` and cancels any active ripple. -/
def disableSurface (s : RippleState) : RippleState :=
  { s with
      interaction.hovered := false
      interaction.pressed := false
      ripples := s.ripples.map deactivate }

/-- The events a mounted surface can receive from the host view layer. -/
inductive RippleEvent
  | pointerEnter
  | pointerLeave
  | pointerDown (x y : Int)
  | pointerUp
  | pointerCancel
  | activate
  | settle
deriving DecidableEq

/-- One transition of the ripple controller: dispatch an event carrying its
timestamp.  Modelled from the spec: on a disabled or soft-disabled surface
all handlers become no-ops (`useRipple(isRippleDisabled)` in Button.tsx
passes the combined flag to the hook). -/
def rippleStep (disabled : Bool) (rect : SurfaceRect)
    (s : RippleState) (ev : Nat × RippleEvent) : RippleState :=
  if disabled then s
  else
    match ev.2 with
    | .pointerEnter => onPointerEnter s
    | .pointerLeave => onPointerLeave s
    | .pointerDown x y => onPointerDown rect x y ev.1 s
    | .pointerUp => onPointerUp s
    | .pointerCancel => onPointerCancel s
    | .activate => onActivate rect ev.1 s
    | .settle => onSettle ev.1 s

/-- Deliver a finite sequence of timestamped events to one surface. -/
def runEvents (disabled : Bool) (rect : SurfaceRect)
    (s : RippleState) (evs : List (Nat × RippleEvent)) : RippleState :=
  evs.foldl (rippleStep disabled rect) s

/-! ### Button component wiring (from `src/unnamed/part_001`, Button.tsx) -/

/-- The Button props that the click wiring and render branches depend on
(`disabled`, `softDisabled` default to `false`; `href` is optional). -/
structure ButtonProps where
  disabled : Bool
  softDisabled : Bool
  href : Option String
deriving DecidableEq

/-- JavaScript truthiness of the optional `href` string prop, as tested by
`if (href)` and `disabled && href` in Button.tsx: an absent prop and the
empty string are both falsy. -/
def hrefTruthy : Option String → Bool
  | none => false
  | some s => !(s == "")

/-- From the source: `isRippleDisabled = disabled || softDisabled`, the
flag passed to `useRipple`. -/
def isRippleDisabled (p : ButtonProps) : Bool :=
  p.disabled || p.softDisabled

/-- From the source: `handleClick`.  Called when a click event reaches the
rendered element; returns the new ripple state and whether the user's
`onClick` callback was invoked.  `if (softDisabled || (disabled && href))`
stops and prevents the event; otherwise `rippleHandlers.onClick` (the
hook's activate handler) runs and the user callback fires. -/
def handleClick (p : ButtonProps) (rect : SurfaceRect) (t : Nat)
    (s : RippleState) : RippleState × Bool :=
  if p.softDisabled || (p.disabled && hrefTruthy p.href) then
    (s, false)
  else
    (rippleStep (isRippleDisabled p) rect s (t, .activate), true)

/-- Click delivery to a rendered Button.  The anchor branch always receives
click events; the button branch renders `<button disabled={disabled}>`, and
the platform dispatches no click event to a natively disabled button, so
`handleClick` never runs there. -/
def deliverClick (p : ButtonProps) (rect : SurfaceRect) (t : Nat)
    (s : RippleState) : RippleState × Bool :=
  if hrefTruthy p.href then
    handleClick p rect t s
  else if p.disabled then
    (s, false)
  else
    handleClick p rect t s

/-- The element the Button component renders as, with the attributes the
source computes on it: the anchor branch carries
`href={disabled ? undefined : href}` and
`tabIndex={disabled && !softDisabled ? -1 : undefined}`; the button branch
carries `disabled={disabled}`. -/
inductive RenderedButton
  | anchor (hrefAttr : Option String) (tabIndex : Option Int)
  | nativeButton (disabledAttr : Bool)
deriving DecidableEq

/-- From the source: `if (href) { return (... <a ...>) }` else
`return (... <button ...>)`. -/
def renderButton (p : ButtonProps) : RenderedButton :=
  if hrefTruthy p.href then
    .anchor (if p.disabled then none else p.href)
      (if p.disabled && !p.softDisabled then some (-1) else none)
  else
    .nativeButton p.disabled

/-- Whether the rendered element is an anchor. -/
def RenderedButton.isAnchor : RenderedButton → Bool
  | .anchor _ _ => true
  | .nativeButton _ => false

/-- The `href` attribute of a rendered anchor (none on a native button). -/
def RenderedButton.hrefAttrOf : RenderedButton → Option String
  | .anchor h _ => h
  | .nativeButton _ => none

/-- The explicit `tabIndex` attribute of a rendered anchor. -/
def RenderedButton.tabIndexOf : RenderedButton → Option Int
  | .anchor _ ti => ti
  | .nativeButton _ => none

/-! ### Field component label rendering (from `src/src/components/Field/Field.tsx`) -/

/-- The two Field variants. -/
inductive FieldVariant
  | filled
  | outlined
deriving DecidableEq

/-- The Field props that the label rendering depends on (all boolean props
default to `false`; `label` is optional). -/
structure FieldProps where
  variant : FieldVariant
  label : Option String
  focused : Bool
  populated : Bool
  disabled : Bool
  required : Bool
deriving DecidableEq

/-- From the source: `hasLabel = Boolean(label)` — JavaScript truthiness,
so an absent label and the empty string both count as no label. -/
def hasLabel (p : FieldProps) : Bool :=
  match p.label with
  | none => false
  | some s => !(s == "")

/-- The CSS state class put on the label span: `styles.floating` or
`styles.resting`. -/
inductive LabelStyle
  | floating
  | resting
deriving DecidableEq

/-- From the source: the text content rendered inside the label span,
`{label}{required && !disabled && '*'}` (identical in the filled and the
outlined branch). -/
def labelText (p : FieldProps) : String :=
  p.label.getD "" ++ (if p.required && !p.disabled then "*" else "")

/-- From the source: the label element the Field renders, if any.
Filled variant: rendered when `hasLabel`, class
`focused || populated ? styles.floating : styles.resting`.
Outlined variant: rendered inside the outline notch when `hasLabel`, class
`cn(styles.label, styles.floating)` — always floating. -/
def renderedLabel (p : FieldProps) : Option (LabelStyle × String) :=
  if hasLabel p then
    match p.variant with
    | .filled =>
        some (if p.focused || p.populated then .floating else .resting,
          labelText p)
    | .outlined => some (.floating, labelText p)
  else none

/-! ### Helper lemmas -/

/-- The five raw pointer events of the event stream delivered to one
surface by the host view layer (claim C1's alphabet). -/
inductive PointerEv
  | enter
  | leave
  | down (x y : Int)
  | up
  | cancel
deriving DecidableEq

/-- Injection of the raw pointer events into the controller's events. -/
def PointerEv.toEvent : PointerEv → RippleEvent
  | .enter => .pointerEnter
  | .leave => .pointerLeave
  | .down x y => .pointerDown x y
  | .up => .pointerUp
  | .cancel => .pointerCancel

/-- The events that terminate a press: pointer-up, pointer-cancel, and
pointer-leave (a leave that arrives while a press is in flight is a
leave-while-pressed). -/
def clearsPress : PointerEv → Bool
  | .up => true
  | .cancel => true
  | .leave => true
  | _ => false

/-- The right-hand side of claim C1, read off the event sequence alone:
the sequence contains a pointer-down such that no later event terminates
the press (no pointer-up, pointer-cancel, or pointer-leave after it; any
leave after an unterminated down is a leave-while-pressed). -/
def hasUnmatchedDown : List (Nat × PointerEv) → Bool
  | [] => false
  | (_, e) :: rest =>
    match e with
    | .down _ _ =>
        (rest.all fun te => !clearsPress te.2) || hasUnmatchedDown rest
    | _ => hasUnmatchedDown rest

lemma pressed_runEvents (rect : SurfaceRect) (s : RippleState)
    (l : List (Nat × PointerEv)) :
    (runEvents false rect s (l.map fun te => (te.1, te.2.toEvent))).interaction.pressed
      = (hasUnmatchedDown l
          || (s.interaction.pressed && l.all fun te => !clearsPress te.2)) := by
  induction l generalizing s with
  | nil => simp [runEvents, hasUnmatchedDown]
  | cons te rest ih =>
    obtain ⟨t, e⟩ := te
    cases e with
    | enter =>
        simp only [List.map, runEvents, List.foldl] at ih ⊢
        rw [ih]
        simp [rippleStep, PointerEv.toEvent, onPointerEnter,
          hasUnmatchedDown, clearsPress]
    | leave =>
        simp only [List.map, runEvents, List.foldl] at ih ⊢
        rw [ih]
        by_cases hp : s.interaction.pressed = true <;>
          simp [rippleStep, PointerEv.toEvent, onPointerLeave, hp,
            hasUnmatchedDown, clearsPress]
    | down x y =>
        simp only [List.map, runEvents, List.foldl] at ih ⊢
        rw [ih]
        simp only [rippleStep, PointerEv.toEvent, onPointerDown,
          hasUnmatchedDown, clearsPress, List.all_cons]
        cases hasUnmatchedDown rest <;>
          cases hall : rest.all (fun te => !clearsPress te.2) <;>
            cases s.interaction.pressed <;> simp [hall]
    | up =>
        simp only [List.map, runEvents, List.foldl] at ih ⊢
        rw [ih]
        simp [rippleStep, PointerEv.toEvent, onPointerUp,
          hasUnmatchedDown, clearsPress]
    | cancel =>
        simp only [List.map, runEvents, List.foldl] at ih ⊢
        rw [ih]
        by_cases hp : s.interaction.pressed = true <;>
          simp [rippleStep, PointerEv.toEvent, onPointerCancel, hp,
            hasUnmatchedDown, clearsPress]

lemma countActive_cons (r : RippleAnimation) (l : List RippleAnimation) :
    countActive (r :: l)
      = (if r.active = true then 1 else 0) + countActive l := by
  by_cases h : r.active = true
  · simp [countActive, List.filter, h]
    omega
  · simp [countActive, List.filter, h]

lemma countActive_map_deactivate (l : List RippleAnimation) :
    countActive (l.map deactivate) = 0 := by
  induction l with
  | nil => rfl
  | cons r rest ih => simp [countActive_cons, deactivate, ih]

lemma countActive_settle_le (t : Nat) (l : List RippleAnimation) :
    countActive (l.map fun r =>
      if r.active && decide (r.startTime + rippleDuration ≤ t) then
        deactivate r
      else r) ≤ countActive l := by
  induction l with
  | nil => simp [countActive]
  | cons r rest ih =>
    simp only [List.map, countActive_cons]
    by_cases hc : (r.active && decide (r.startTime + rippleDuration ≤ t)) = true
    · rw [if_pos hc]
      have h1 : (deactivate r).active = false := rfl
      rw [h1, if_neg Bool.false_ne_true, Nat.zero_add]
      exact le_trans ih (Nat.le_add_left _ _)
    · rw [if_neg hc]
      exact Nat.add_le_add_left ih _

lemma countActive_step_le (disabled : Bool) (rect : SurfaceRect)
    (s : RippleState) (ev : Nat × RippleEvent)
    (h : countActive s.ripples ≤ 1) :
    countActive (rippleStep disabled rect s ev).ripples ≤ 1 := by
  cases disabled with
  | true => simpa [rippleStep] using h
  | false =>
    obtain ⟨t, e⟩ := ev
    cases e with
    | pointerEnter => simpa [rippleStep, onPointerEnter] using h
    | pointerLeave =>
        by_cases hp : s.interaction.pressed = true <;>
          simp [rippleStep, onPointerLeave, hp, countActive_map_deactivate, h]
    | pointerDown x y =>
        simp [rippleStep, onPointerDown, countActive_cons,
          countActive_map_deactivate]
    | pointerUp => simpa [rippleStep, onPointerUp] using h
    | pointerCancel =>
        by_cases hp : s.interaction.pressed = true <;>
          simp [rippleStep, onPointerCancel, hp, countActive_map_deactivate, h]
    | activate =>
        simp [rippleStep, onActivate, onPointerUp, onPointerDown,
          countActive_cons, countActive_map_deactivate]
    | settle =>
        simp only [rippleStep, Bool.false_eq_true, if_false, onSettle]
        exact le_trans (countActive_settle_le t s.ripples) h

lemma countActive_runEvents_le (disabled : Bool) (rect : SurfaceRect)
    (s : RippleState) (evs : List (Nat × RippleEvent))
    (h : countActive s.ripples ≤ 1) :
    countActive (runEvents disabled rect s evs).ripples ≤ 1 := by
  induction evs generalizing s with
  | nil => exact h
  | cons ev rest ih =>
    exact ih (rippleStep disabled rect s ev) (countActive_step_le _ _ _ _ h)

/-! ### Claim theorems -/

/-- Claim C1: for every finite sequence of pointer events (enter, leave,
down, up, cancel) delivered to one enabled surface, the resulting
interaction state has `pressed = true` if and only if the sequence contains
a pointer-down with no later pointer-up, pointer-cancel, or
pointer-leave-while-pressed. -/
theorem pressed_iff_unmatched_down (rect : SurfaceRect)
    (l : List (Nat × PointerEv)) :
    (runEvents false rect initState
        (l.map fun te => (te.1, te.2.toEvent))).interaction.pressed = true
      ↔ hasUnmatchedDown l = true := by
  rw [pressed_runEvents]
  simp [initState]

/-- Claim C2: after every finite sequence of events on one surface, at most
one RippleAnimation is active; and in the scenario down(5,5) followed by
down(20,20) before settling, exactly the ripple with origin (20,20) is
active (the first is discarded, never queued). -/
theorem at_most_one_active_ripple :
    (∀ (disabled : Bool) (rect : SurfaceRect)
        (evs : List (Nat × RippleEvent)),
        countActive (runEvents disabled rect initState evs).ripples ≤ 1)
    ∧ ((runEvents false ⟨0, 0, 100, 40⟩ initState
          [(0, .pointerDown 5 5), (1, .pointerDown 20 20)]).ripples.filter
            fun r => r.active)
        = [{ originX := 20, originY := 20, startTime := 1, active := true }] := by
  constructor
  · intro disabled rect evs
    exact countActive_runEvents_le disabled rect initState evs
      (by simp [initState, countActive])
  · decide

/-- Claim C3: on a disabled or soft-disabled surface every pointer/click
handler is a no-op (the interaction state and ripple state are unchanged
and the user's `onClick` callback is not invoked), and the act of disabling
immediately sets `hovered = false` and `pressed = false` and cancels any
active ripple. -/
theorem disabled_surface_handlers_noop (p : ButtonProps)
    (h : isRippleDisabled p = true) :
    (∀ (rect : SurfaceRect) (s : RippleState) (ev : Nat × RippleEvent),
        rippleStep (isRippleDisabled p) rect s ev = s)
    ∧ (∀ (rect : SurfaceRect) (t : Nat) (s : RippleState),
        deliverClick p rect t s = (s, false))
    ∧ (∀ s : RippleState,
        (disableSurface s).interaction.hovered = false
        ∧ (disableSurface s).interaction.pressed = false
        ∧ countActive (disableSurface s).ripples = 0) := by
  refine ⟨?_, ?_, ?_⟩
  · intro rect s ev
    simp [rippleStep, h]
  · intro rect t s
    obtain ⟨d, sd, href⟩ := p
    simp only [isRippleDisabled] at h
    cases d with
    | true =>
        cases hh : hrefTruthy href <;>
          simp [deliverClick, handleClick, hh]
    | false =>
        simp only [Bool.false_or] at h
        cases hh : hrefTruthy href <;>
          simp [deliverClick, handleClick, hh, h]
  · intro s
    simp [disableSurface, countActive_map_deactivate]

/-- Witness for C3 at a concrete disabled button. -/
theorem disabled_surface_handlers_noop_witness :
    rippleStep (isRippleDisabled ⟨true, false, none⟩) ⟨0, 0, 10, 10⟩
        initState (0, .pointerEnter) = initState
    ∧ deliverClick ⟨true, false, none⟩ ⟨0, 0, 10, 10⟩ 0 initState
        = (initState, false)
    ∧ countActive (disableSurface initState).ripples = 0 := by
  have h := disabled_surface_handlers_noop ⟨true, false, none⟩ rfl
  exact ⟨h.1 _ _ _, h.2.1 _ _ _, (h.2.2 initState).2.2⟩

/-- Counterexample to claim C4 as stated: a pointer-leave arriving with
`hovered = false` (but `pressed = true`, reachable by a pointer-down with
no preceding pointer-enter) does not leave the state unchanged — it clears
`pressed` and finalizes the active ripple. -/
theorem leave_without_hover_changes_state :
    (rippleStep false ⟨0, 0, 10, 10⟩ initState
        (0, .pointerDown 1 1)).interaction.hovered = false
    ∧ rippleStep false ⟨0, 0, 10, 10⟩
        (rippleStep false ⟨0, 0, 10, 10⟩ initState (0, .pointerDown 1 1))
        (1, .pointerLeave)
      ≠ rippleStep false ⟨0, 0, 10, 10⟩ initState (0, .pointerDown 1 1) := by
  decide

/-- Claim C4 (amended): a pointer-up or pointer-cancel received with
`pressed = false`, or a pointer-leave received with `hovered = false` and
`pressed = false`, leaves the state unchanged; all handlers are total
functions (no event can raise an error), and no event sequence accumulates
more than one active animation instance. -/
theorem out_of_order_events_are_noops (rect : SurfaceRect)
    (s : RippleState) (t : Nat)
    (h : s.interaction.pressed = false) :
    rippleStep false rect s (t, .pointerUp) = s
    ∧ rippleStep false rect s (t, .pointerCancel) = s
    ∧ (s.interaction.hovered = false →
        rippleStep false rect s (t, .pointerLeave) = s)
    ∧ ∀ evs : List (Nat × RippleEvent),
        countActive (runEvents false rect initState evs).ripples ≤ 1 := by
  obtain ⟨⟨hov, pr, foc⟩, rl⟩ := s
  simp only [] at h
  subst h
  refine ⟨?_, ?_, ?_, ?_⟩
  · simp [rippleStep, onPointerUp]
  · simp [rippleStep, onPointerCancel]
  · intro hh
    simp only [] at hh
    subst hh
    simp [rippleStep, onPointerLeave]
  · intro evs
    exact countActive_runEvents_le false rect initState evs
      (by simp [initState, countActive])

/-- Witness for C4 at the initial state of a concrete surface. -/
theorem out_of_order_events_are_noops_witness :
    rippleStep false ⟨0, 0, 10, 10⟩ initState (0, .pointerUp) = initState
    ∧ rippleStep false ⟨0, 0, 10, 10⟩ initState (0, .pointerCancel) = initState
    ∧ rippleStep false ⟨0, 0, 10, 10⟩ initState (0, .pointerLeave) = initState
    ∧ countActive (runEvents false ⟨0, 0, 10, 10⟩ initState
        [(0, .pointerUp)]).ripples ≤ 1 := by
  have h := out_of_order_events_are_noops ⟨0, 0, 10, 10⟩ initState 0 rfl
  exact ⟨h.1, h.2.1, h.2.2.1 rfl, h.2.2.2 _⟩

/-- Claim C5: invoking the click handler (keyboard Enter/Space or
programmatic activation) on an enabled surface in its initial state — no
prior pointer event recorded — invokes the user callback and creates a
ripple whose origin is the geometric center of the surface; the handler is
a total function, so no failure arises from missing pointer coordinates. -/
theorem activate_without_pointer_centers_ripple (rect : SurfaceRect)
    (t : Nat) :
    (deliverClick ⟨false, false, none⟩ rect t initState).2 = true
    ∧ ((deliverClick ⟨false, false, none⟩ rect t initState).1.ripples.filter
        fun r => r.active)
      = [{ originX := rect.width / 2, originY := rect.height / 2,
           startTime := t, active := true }] := by
  constructor
  · rfl
  · simp [deliverClick, handleClick, hrefTruthy, isRippleDisabled,
      rippleStep, onActivate, onPointerUp, onPointerDown, initState,
      List.filter, add_sub_cancel_left]

/-- Claim C6: for every state of an enabled surface, pointer-leave sets
`hovered = false`; if `pressed` was true at that moment it also clears
`pressed` and finalizes any active ripple early; all other state
components (`focused`, and the ripple list when not pressed) are
unchanged. -/
theorem pointer_leave_clears_hover_press (rect : SurfaceRect)
    (s : RippleState) (t : Nat) :
    rippleStep false rect s (t, .pointerLeave)
      = { interaction :=
            { hovered := false, pressed := false,
              focused := s.interaction.focused },
          ripples :=
            if s.interaction.pressed = true then s.ripples.map deactivate
            else s.ripples } := by
  obtain ⟨⟨hov, pr, foc⟩, rl⟩ := s
  cases pr <;> simp [rippleStep, onPointerLeave]

/-- Claim C7: for every enabled surface and coordinates (x, y),
pointer-down sets `pressed = true`, records (x, y) relative to the
surface's bounding box as the origin of a newly started active ripple, and
that new ripple replaces any currently active one (all prior instances are
deactivated, leaving exactly one active). -/
theorem pointer_down_starts_replacing_ripple (rect : SurfaceRect)
    (s : RippleState) (x y : Int) (t : Nat) :
    rippleStep false rect s (t, .pointerDown x y)
      = { interaction :=
            { hovered := s.interaction.hovered, pressed := true,
              focused := s.interaction.focused },
          ripples :=
            { originX := x - rect.left, originY := y - rect.top,
              startTime := t, active := true } :: s.ripples.map deactivate }
    ∧ countActive
        (rippleStep false rect s (t, .pointerDown x y)).ripples = 1 := by
  obtain ⟨⟨hov, pr, foc⟩, rl⟩ := s
  constructor
  · simp [rippleStep, onPointerDown]
  · simp [rippleStep, onPointerDown, countActive_cons,
      countActive_map_deactivate]

/-- Claim C8: for every Field with a non-empty label, the filled variant
renders the label with the floating style iff `focused` or `populated` is
true (resting style otherwise), and the outlined variant always renders
the label inside the outline notch with the floating style. -/
theorem field_label_floating_iff (p : FieldProps)
    (h : hasLabel p = true) :
    (p.variant = FieldVariant.filled →
      (((renderedLabel p).map Prod.fst = some LabelStyle.floating)
          ↔ (p.focused || p.populated) = true)
      ∧ ((p.focused || p.populated) = false →
          (renderedLabel p).map Prod.fst = some LabelStyle.resting))
    ∧ (p.variant = FieldVariant.outlined →
        (renderedLabel p).map Prod.fst = some LabelStyle.floating) := by
  constructor
  · intro hv
    cases hfp : (p.focused || p.populated) <;>
      simp [renderedLabel, h, hv, hfp]
  · intro hv
    simp [renderedLabel, h, hv]

/-- Witness for C8 at a concrete focused filled Field and a concrete
resting outlined Field. -/
theorem field_label_floating_iff_witness :
    (renderedLabel
        ⟨FieldVariant.filled, some "Name", true, false, false, false⟩).map
      Prod.fst = some LabelStyle.floating
    ∧ (renderedLabel
        ⟨FieldVariant.outlined, some "Name", false, false, false, false⟩).map
      Prod.fst = some LabelStyle.floating := by
  have h1 := field_label_floating_iff
    ⟨FieldVariant.filled, some "Name", true, false, false, false⟩ (by decide)
  have h2 := field_label_floating_iff
    ⟨FieldVariant.outlined, some "Name", false, false, false, false⟩ (by decide)
  exact ⟨(h1.1 rfl).1.mpr rfl, h2.2 rfl⟩

lemma string_ne_self_append_star (s : String) : s ≠ s ++ "*" := by
  intro hcontra
  have hlen := congrArg String.length hcontra
  rw [String.length_append] at hlen
  have hstar : "*".length = 1 := rfl
  omega

/-- Claim C9: for every Field with a non-empty label, the rendered label
text is the label with the asterisk marker appended iff `required` is true
and `disabled` is false; a Field that is both required and disabled
renders its label without the asterisk. -/
theorem field_required_marker (p : FieldProps)
    (_hl : hasLabel p = true) :
    (labelText p = p.label.getD "" ++ "*"
        ↔ (p.required = true ∧ p.disabled = false))
    ∧ (p.required = true → p.disabled = true →
        labelText p = p.label.getD "") := by
  cases hr : p.required <;> cases hd : p.disabled <;>
    simp [labelText, hr, hd, string_ne_self_append_star]

/-- Witness for C9 at a concrete required enabled Field and a concrete
required disabled Field. -/
theorem field_required_marker_witness :
    labelText ⟨FieldVariant.filled, some "Name", false, false, false, true⟩
      = "Name*"
    ∧ labelText ⟨FieldVariant.filled, some "Name", false, false, true, true⟩
      = "Name" := by
  have h1 := field_required_marker
    ⟨FieldVariant.filled, some "Name", false, false, false, true⟩ (by decide)
  have h2 := field_required_marker
    ⟨FieldVariant.filled, some "Name", false, false, true, true⟩ (by decide)
  constructor
  · rw [h1.1.mpr ⟨rfl, rfl⟩]
    rfl
  · rw [h2.2 rfl rfl]
    rfl

/-- Counterexample to claim C10 as stated: the empty string is a provided
`href` prop, yet `if (href)` is false on it, so the component renders a
native button, not an anchor. -/
theorem empty_href_renders_native_button :
    (ButtonProps.mk false false (some "")).href.isSome = true
    ∧ (renderButton ⟨false, false, some ""⟩).isAnchor = false := by
  decide

/-- Claim C10 (amended): the Button renders an anchor iff `href` is
provided and non-empty (JavaScript-truthy); when rendered as an anchor
with `disabled = true` the `href` attribute is omitted entirely and
`tabIndex` is -1 unless `softDisabled` is also true (then no explicit
`tabIndex` is set). -/
theorem render_anchor_iff_truthy_href (p : ButtonProps) :
    ((renderButton p).isAnchor = true ↔ hrefTruthy p.href = true)
    ∧ (hrefTruthy p.href = true → p.disabled = true →
        (renderButton p).hrefAttrOf = none
        ∧ (renderButton p).tabIndexOf
            = if p.softDisabled = true then none else some (-1)) := by
  obtain ⟨d, sd, href⟩ := p
  constructor
  · cases hh : hrefTruthy href <;>
      simp [renderButton, hh, RenderedButton.isAnchor]
  · intro hh hd
    simp only [] at hd
    subst hd
    cases sd <;>
      simp [renderButton, hh, RenderedButton.hrefAttrOf,
        RenderedButton.tabIndexOf]

/-- Witness for C10 at a concrete disabled link button. -/
theorem render_anchor_iff_truthy_href_witness :
    (renderButton ⟨true, false, some "x"⟩).isAnchor = true
    ∧ (renderButton ⟨true, false, some "x"⟩).hrefAttrOf = none
    ∧ (renderButton ⟨true, false, some "x"⟩).tabIndexOf = some (-1) := by
  have h := render_anchor_iff_truthy_href ⟨true, false, some "x"⟩
  refine ⟨h.1.mpr (by decide), (h.2 (by decide) rfl).1, ?_⟩
  have h2 := (h.2 (by decide) rfl).2
  simpa using h2
